import Mathlib

/-!
Verification of the Java automated compilation script (jacs).

Shallow embedding of `src/jacs.py` and `src/jacs_modules/compilation_options.py`:
the directory scanner `_posorder_traversal`, the compile/run orchestration,
the build cleaner `clear_build`, the options record `CompilationOptions` with
its validated setters and JSON persistence, and the menu dispatch.

The filesystem is modelled as a rose tree of named entries; external process
outcomes (compiler / runtime exit codes) are oracles `String → Bool`; path
resolution (`os.path.abspath`, `os.path.exists`, `os.path.isdir`) is an oracle
record `OSPath`.  The path separator is fixed to "/" (POSIX).
-/

namespace Jacs

/-- `os.path.join(folder, name)` for a simple relative `name` (the only way the
script ever calls it). -/
def pathJoin (folder name : String) : String := folder ++ "/" ++ name

/-!
Python string primitives, embedded at the character-list level so that they
evaluate by kernel reduction.  They mirror CPython semantics on the ASCII
inputs the script handles.
-/

/-- Python `str.endswith(suffix)`. -/
def pyEndsWith (s suffix : String) : Bool :=
  decide (suffix.data.length ≤ s.data.length) &&
    decide (s.data.drop (s.data.length - suffix.data.length) = suffix.data)

/-- Split a character list at every occurrence of `c` (Python
`str.split(sep)` for a one-character separator, empty pieces kept). -/
def splitChar (c : Char) : List Char → List (List Char)
  | [] => [[]]
  | x :: xs =>
      match splitChar c xs with
      | [] => [[]]
      | t :: ts => if x = c then [] :: t :: ts else (x :: t) :: ts

/-- Python `s.split(",")`. -/
def pySplitComma (s : String) : List String :=
  (splitChar ',' s.data).map List.asString

/-- Drop leading whitespace from a character list. -/
def dropLeadingWS : List Char → List Char
  | [] => []
  | c :: cs => if c.isWhitespace then dropLeadingWS cs else c :: cs

/-- Python `str.strip()`. -/
def pyStrip (s : String) : String :=
  ((dropLeadingWS (dropLeadingWS s.data).reverse).reverse).asString

/-- Python `str.lower()` (ASCII). -/
def pyLower (s : String) : String := (s.data.map Char.toLower).asString

/-- Python `str.replace(old, new)` for one-character `old`/`new`. -/
def pyReplaceChar (s : String) (old new : Char) : String :=
  (s.data.map (fun c => if c = old then new else c)).asString

/-- `os.path.basename`: the component after the last separator. -/
def basename (p : String) : String := ((splitChar '/' p.data).getLastD []).asString

/-- One entry of a directory listing: a plain file or a subdirectory with its
own listing.  Listing order is the raw order `os.listdir` would return. -/
inductive FSEntry where
  | file (name : String)
  | dir (name : String) (entries : List FSEntry)

/-- Embedding of `_posorder_traversal` (jacs.py lines 36-64) acting on the
listing of the folder `folder`: for each entry in listing order, if it is a
directory, recurse into it and splice the results in place (`extend`);
otherwise append the joined path when `condition` holds. -/
def posorder_traversal (condition : String → Bool) (folder : String) :
    List FSEntry → List String
  | [] => []
  | .file n :: es =>
      (if condition (pathJoin folder n) then [pathJoin folder n] else []) ++
        posorder_traversal condition folder es
  | .dir n sub :: es =>
      posorder_traversal condition (pathJoin folder n) sub ++
        posorder_traversal condition folder es

/-- All file paths (at any depth, directories excluded) under a listing, in
the same raw listing order.  Reference function for stating exactness. -/
def allFiles (folder : String) : List FSEntry → List String
  | [] => []
  | .file n :: es => pathJoin folder n :: allFiles folder es
  | .dir n sub :: es => allFiles (pathJoin folder n) sub ++ allFiles folder es

/-- The result of the scanner on one entry, spliced in place: written to
mirror the spec's wording "if the entry is itself a directory, recurse into it
and append its results before evaluating sibling entries that come later in
the listing; if the entry is a file matching the predicate, append it". -/
def spliceEntry (condition : String → Bool) (folder : String) : FSEntry → List String
  | .file n => if condition (pathJoin folder n) then [pathJoin folder n] else []
  | .dir n sub =>
      (sub.attach.map (fun e => spliceEntry condition (pathJoin folder n) e.val)).flatten
termination_by e => sizeOf e
decreasing_by
  simp only [FSEntry.dir.sizeOf_spec]
  have := List.sizeOf_lt_of_mem e.property
  omega

/-- Oracle for the `os.path` functions the script uses: `abspath` resolves a
path to an absolute one, `pathExists` is `os.path.exists`, `isDir` is
`os.path.isdir`. -/
structure OSPath where
  abspath : String → String
  pathExists : String → Bool
  isDir : String → Bool

/-- Outcome of `CompilationOptions._validate_folder`: either the absolute
path, or termination of the whole process (`exit(1)`) after printing an error
message whose path part is `reportedName`. -/
inductive ValidateResult where
  | ok (absolutePath : String)
  | fatalExit (code : Nat) (reportedName : String)
deriving DecidableEq

/-- Embedding of `CompilationOptions._validate_folder`
(compilation_options.py lines 41-61): resolve to an absolute path; if the
resolved path does not exist or is not a directory, print an error naming
`os.path.basename(absolute_path)` and `exit(1)`; otherwise return the
absolute path. -/
def validate_folder (os : OSPath) (folder_path : String) : ValidateResult :=
  let absolute_path := os.abspath folder_path
  if !(os.pathExists absolute_path) || !(os.isDir absolute_path) then
    .fatalExit 1 (basename absolute_path)
  else
    .ok absolute_path

/-- The mutable options record (compilation_options.py lines 7-36). -/
structure CompilationOptions where
  src_folder : String
  main_class_path : String
  class_path : String
  verbose : Bool
  encoding : String
  compiler : String
deriving DecidableEq

/-- `CompilationOptions()` with no arguments: defaults plus empty paths. -/
def CompilationOptions.empty : CompilationOptions :=
  { src_folder := "", main_class_path := "", class_path := ""
    verbose := false, encoding := "UTF-8", compiler := "javac" }

/-- `set_src_folder`: validated; `none` models the `exit(1)` inside
`_validate_folder`. -/
def set_src_folder (os : OSPath) (o : CompilationOptions) (v : String) :
    Option CompilationOptions :=
  match validate_folder os v with
  | .ok a => some { o with src_folder := a }
  | .fatalExit _ _ => none

/-- `set_class_path`: validated like `set_src_folder`. -/
def set_class_path (os : OSPath) (o : CompilationOptions) (v : String) :
    Option CompilationOptions :=
  match validate_folder os v with
  | .ok a => some { o with class_path := a }
  | .fatalExit _ _ => none

/-- `set_main_class_path`: plain assignment, never validated. -/
def set_main_class_path (o : CompilationOptions) (v : String) : CompilationOptions :=
  { o with main_class_path := v }

/-- `set_verbose`: plain assignment. -/
def set_verbose (o : CompilationOptions) (v : Bool) : CompilationOptions :=
  { o with verbose := v }

/-- `set_encoding`: plain assignment. -/
def set_encoding (o : CompilationOptions) (v : String) : CompilationOptions :=
  { o with encoding := v }

/-- `set_compiler`: plain assignment. -/
def set_compiler (o : CompilationOptions) (v : String) : CompilationOptions :=
  { o with compiler := v }

/-- A JSON value as the options file uses them: strings and booleans only. -/
inductive JsonValue where
  | jstr (s : String)
  | jbool (b : Bool)
deriving DecidableEq

/-- A JSON object, as an ordered list of key/value pairs. -/
def JsonObject := List (String × JsonValue)

/-- Dictionary lookup `obj[key]` (`None` models Python's `KeyError`). -/
def jlookup (j : JsonObject) (k : String) : Option JsonValue :=
  (j.find? (fun p => p.fst == k)).map Prod.snd

/-- Lookup of a string field. -/
def jlookupStr (j : JsonObject) (k : String) : Option String :=
  match jlookup j k with
  | some (.jstr s) => some s
  | _ => none

/-- Lookup of a boolean field. -/
def jlookupBool (j : JsonObject) (k : String) : Option Bool :=
  match jlookup j k with
  | some (.jbool b) => some b
  | _ => none

/-- Embedding of `CompilationOptions.create_compilation_options_file`
(compilation_options.py lines 156-180): the JSON object written to the
persisted options file, with exactly these six fields in this order. -/
def create_compilation_options_file (o : CompilationOptions) : JsonObject :=
  [("src_folder", .jstr o.src_folder),
   ("main_class_path", .jstr o.main_class_path),
   ("class_path", .jstr o.class_path),
   ("verbose", .jbool o.verbose),
   ("encoding", .jstr o.encoding),
   ("compiler", .jstr o.compiler)]

/-- Embedding of `CompilationOptions.load_compilation_options_file`
(compilation_options.py lines 127-154): build a default record, then apply
the six setters with the values read from the file.  `none` models either a
missing/ill-typed field (`KeyError`) or the `exit(1)` a validated setter can
take. -/
def load_compilation_options_file (os : OSPath) (j : JsonObject) :
    Option CompilationOptions := do
  let o := CompilationOptions.empty
  let o ← set_src_folder os o (← jlookupStr j "src_folder")
  let o := set_main_class_path o (← jlookupStr j "main_class_path")
  let o ← set_class_path os o (← jlookupStr j "class_path")
  let o := set_verbose o (← jlookupBool j "verbose")
  let o := set_encoding o (← jlookupStr j "encoding")
  let o := set_compiler o (← jlookupStr j "compiler")
  return o

/-- One iteration of the settings submenu (`setup_compilation_options`,
jacs.py lines 254-302): the numeric choice together with the raw string the
user then types.  `invalidChoice` is any other menu input. -/
inductive SettingsAction where
  | chooseSrcFolder (v : String)
  | chooseMainClassPath (v : String)
  | chooseVerbose (v : String)
  | chooseClassPath (v : String)
  | chooseEncoding (v : String)
  | chooseCompiler (v : String)
  | invalidChoice
deriving DecidableEq

/-- Observable persistence-relevant events of a settings session: a field
mutation leaving the in-memory record in the given state, or a write of the
whole record to the persisted options file. -/
inductive SessionEvent where
  | mutated (o : CompilationOptions)
  | persisted (o : CompilationOptions)
deriving DecidableEq

/-- Effect of one submenu iteration on the in-memory record; `none` models
the `exit(1)` a validated setter can take. `invalidChoice` only prints an
error and re-prompts. -/
def applySettingsAction (os : OSPath) (o : CompilationOptions) :
    SettingsAction → Option CompilationOptions
  | .chooseSrcFolder v => set_src_folder os o v
  | .chooseMainClassPath v => some (set_main_class_path o v)
  | .chooseClassPath v => set_class_path os o v
  | .chooseVerbose v => some (set_verbose o (pyLower (pyStrip v) == "y"))
  | .chooseEncoding v => some (set_encoding o v)
  | .chooseCompiler v => some (set_compiler o v)
  | .invalidChoice => some o

/-- The `while True` loop of `setup_compilation_options` over the user's
actions (everything typed before the final "0"), recording the mutation
events.  No write to the options file happens inside the loop. -/
def settingsLoop (os : OSPath) (o : CompilationOptions) :
    List SettingsAction → Option (CompilationOptions × List SessionEvent)
  | [] => some (o, [])
  | a :: as =>
      match applySettingsAction os o a with
      | none => none
      | some o2 =>
          match settingsLoop os o2 as with
          | none => none
          | some (fin, evs) =>
              some (fin, (if a = .invalidChoice then [] else [.mutated o2]) ++ evs)

/-- Embedding of `setup_compilation_options` (jacs.py lines 247-305): run the
submenu loop until the user picks "0", then — only then — call
`create_compilation_options_file` once, writing the final record. -/
def setup_compilation_options (os : OSPath) (o : CompilationOptions)
    (actions : List SettingsAction) :
    Option (CompilationOptions × List SessionEvent) :=
  match settingsLoop os o actions with
  | none => none
  | some (fin, evs) => some (fin, evs ++ [.persisted fin])

/-- Decides the property claimed of the settings submenu: every mutation is
immediately followed (before the next prompt) by a persistence of the updated
record. -/
def immediatelyPersisted : List SessionEvent → Bool
  | [] => true
  | .mutated o :: rest =>
      match rest with
      | .persisted o2 :: _ => o2 == o && immediatelyPersisted rest
      | _ => false
  | .persisted _ :: rest => immediatelyPersisted rest

/-- `CompilationError` (jacs_modules/exceptions.py): raised by
`_compile_file` when the external compiler exits non-zero. -/
structure CompilationError where
  message : String
deriving DecidableEq

/-- The compiler command `_compile_file` builds (jacs.py lines 74-81):
`<compiler> -cp <class_path> -encoding <encoding> [-verbose] <file>`. -/
def compileCommand (o : CompilationOptions) (path_to_file : String) : List String :=
  [o.compiler, "-cp", o.class_path, "-encoding", o.encoding] ++
    (if o.verbose then ["-verbose"] else []) ++ [path_to_file]

/-- Embedding of `_compile_file` (jacs.py lines 66-91) as exception flow:
`ok` tells whether the external compiler exits 0 on the file; on non-zero
exit a `CompilationError` naming the file is raised. -/
def compile_file (ok : String → Bool) (path_to_file : String) :
    Except CompilationError Unit :=
  if ok path_to_file then .ok ()
  else .error { message := "Could not compile the file \"" ++ path_to_file ++ "\"." }

/-- The `for file in files_to_compile` loop body shared by `compile_all_files`
and `compile_specific_files`: compile each file in order, propagating the
first `CompilationError`. -/
def compileFilesSeq (ok : String → Bool) : List String → Except CompilationError Unit
  | [] => .ok ()
  | f :: fs =>
      match compile_file ok f with
      | .error e => .error e
      | .ok _ => compileFilesSeq ok fs

/-- What a batch compile operation reports, and which files it attempted.
`surfacedDiagnostics` is the failing file with its captured compiler stderr
(`diag`), printed by `_compile_file` before raising. -/
structure BatchReport where
  attempted : List String
  failureReported : Bool
  surfacedDiagnostics : Option (String × String)
  totalReported : Option Nat
deriving DecidableEq

/-- The attempted files and first failure of the shared batch loop:
each file is attempted in list order; on the first compiler failure the file
and its diagnostics are recorded and no later file is attempted. -/
def runBatch (ok : String → Bool) (diag : String → String) :
    List String → List String × Option (String × String)
  | [] => ([], none)
  | f :: fs =>
      if ok f then
        let r := runBatch ok diag fs
        (f :: r.fst, r.snd)
      else ([f], some (f, diag f))

/-- The `try/for/_compile_file/except CompilationError` pattern of
`compile_all_files` (jacs.py lines 155-165) and `compile_specific_files`
(lines 193-202): on failure print "Could not compile all files!" and return
(total never printed); on success print the total number of files compiled. -/
def compileBatchReport (ok : String → Bool) (diag : String → String)
    (files : List String) : BatchReport :=
  let r := runBatch ok diag files
  { attempted := r.fst
    failureReported := r.snd.isSome
    surfacedDiagnostics := r.snd
    totalReported := if r.snd.isSome then none else some files.length }

/-- Embedding of `compile_all_files` (jacs.py lines 140-165): scan the source
folder for `.java` files, then run the shared batch loop. -/
def compile_all_files (ok : String → Bool) (diag : String → String)
    (o : CompilationOptions) (tree : List FSEntry) : BatchReport :=
  compileBatchReport ok diag
    (posorder_traversal (fun f => pyEndsWith f ".java") o.src_folder tree)

/-- Python `str.isdigit` restricted to ASCII: non-empty and all digits. -/
def pyIsDigit (s : String) : Bool := !s.data.isEmpty && s.data.all Char.isDigit

/-- Python `int(...)` on a digit string. -/
def pyInt (s : String) : Nat := s.data.foldl (fun a c => 10 * a + (c.toNat - 48)) 0

/-- The selection pipeline of `compile_specific_files` (jacs.py lines
182-184): split the raw input on commas, strip each token, and keep exactly
the tokens that are all digits with value between 1 and the number of
available files.  Anything else is dropped with no message. -/
def selectedTokens (input : String) (n : Nat) : List String :=
  ((pySplitComma input).map pyStrip).filter
    (fun t => pyIsDigit t && decide (1 ≤ pyInt t) && decide (pyInt t ≤ n))

/-- Embedding of `compile_specific_files` (jacs.py lines 167-202):
`files_available` is the scanner's result; `none` models the
"No files were selected!" early return (nothing is compiled).  Each surviving
token `k` selects the `k`-th available file, duplicates and input order
preserved, and the batch loop runs on that list. -/
def compile_specific_files (ok : String → Bool) (diag : String → String)
    (files_available : List String) (input : String) : Option BatchReport :=
  let files_to_compile := selectedTokens input files_available.length
  if files_to_compile.isEmpty then none
  else
    some (compileBatchReport ok diag
      (files_to_compile.map (fun t => files_available.getD (pyInt t - 1) "")))

/-- `os.path.join(src_folder, main_class_path.replace(".", os.sep) + ".java")`
(jacs.py line 231): the source file the compile-and-run action compiles. -/
def mainFilePath (src_folder main_class_path : String) : String :=
  pathJoin src_folder ((pyReplaceChar main_class_path '.' '/') ++ ".java")

/-- The external commands `compile_and_run_project` (jacs.py lines 223-245)
issues, in order: always the compiler on the resolved main file first; then,
only when that compilation succeeded, `java -cp <class_path>
<main_class_path>`.  When compilation fails, the raised `CompilationError`
ends the operation before any runtime invocation. -/
def compile_and_run_invocations (ok : String → Bool) (o : CompilationOptions) :
    List (List String) :=
  let main_file := mainFilePath o.src_folder o.main_class_path
  compileCommand o main_file ::
    (if ok main_file then [["java", "-cp", o.class_path, o.main_class_path]] else [])

/-- The `try: ... except CompilationError: print(...); return` wrapper of
`compile_all_files` (jacs.py lines 155-162) and `compile_specific_files`
(lines 193-199): whatever `CompilationError` the loop raises is caught,
reported, and control returns to the caller. -/
def catchCompilationError (x : Except CompilationError Unit) :
    Except CompilationError Unit :=
  match x with
  | .error _ => .ok ()
  | .ok _ => .ok ()

/-- Exception flow of one main-menu dispatch (jacs.py lines 330-362), given
the compiler outcome oracle `ok`, the scanned tree and the selection input:
choices "1" and "2" wrap their batch loop in `try/except CompilationError`;
choice "3" raises nothing; choice "4" calls `_compile_file` with no handler,
so the `Except` result of `compile_file` — the raised `CompilationError`, if
any — propagates out of the menu loop unchanged (a runtime failure of the
`java` process is handled by a returncode check, not an exception); all other
choices only print. -/
def menu_actionE (ok : String → Bool) (o : CompilationOptions)
    (tree : List FSEntry) (selectionInput : String) (choice : String) :
    Except CompilationError Unit :=
  if choice == "1" then
    catchCompilationError (compileFilesSeq ok
      (posorder_traversal (fun f => pyEndsWith f ".java") o.src_folder tree))
  else if choice == "2" then
    let files_available := posorder_traversal (fun f => pyEndsWith f ".java") o.src_folder tree
    let toks := selectedTokens selectionInput files_available.length
    catchCompilationError (compileFilesSeq ok
      (toks.map (fun t => files_available.getD (pyInt t - 1) "")))
  else if choice == "3" then .ok ()
  else if choice == "4" then
    compile_file ok (mainFilePath o.src_folder o.main_class_path)
  else .ok ()

/-- Observable events of `clear_build` (jacs.py lines 204-221): one
`deleted` per removed file, then the closing "Build cleaned!" message.
`totalReported` is what the claim expects; the function never produces it. -/
inductive CleanEvent where
  | deleted (f : String)
  | buildCleaned
  | totalReported (n : Nat)
deriving DecidableEq

/-- Embedding of `clear_build` (jacs.py lines 204-221): scan for files ending
in ".class", delete each one (second component: the removed paths, in
order), print one message per deletion and a final "Build cleaned!" — and
nothing else. -/
def clear_build (folder : String) (tree : List FSEntry) :
    List CleanEvent × List String :=
  let files_to_delete := posorder_traversal (fun f => pyEndsWith f ".class") folder tree
  (files_to_delete.map CleanEvent.deleted ++ [.buildCleaned], files_to_delete)

/-- Lexicographic order on character lists, for stating that the scanner
does not sort. -/
def charListLe : List Char → List Char → Bool
  | [], _ => true
  | _ :: _, [] => false
  | a :: as, b :: bs => if a < b then true else if a = b then charListLe as bs else false

/-- Is a list of paths in lexicographic order? -/
def isLexSorted : List String → Bool
  | [] => true
  | [_] => true
  | a :: b :: t => charListLe a.data b.data && isLexSorted (b :: t)

/-- Recognizes a persistence event of a settings session. -/
def isPersistedEvent : SessionEvent → Bool
  | .persisted _ => true
  | .mutated _ => false

/-- An `os.path` oracle on which every path is an existing directory and
already absolute. -/
def osAll : OSPath :=
  { abspath := fun s => s, pathExists := fun _ => true, isDir := fun _ => true }

/-- A concrete configured options record for evaluation. -/
def demoOptions : CompilationOptions :=
  { src_folder := "/proj", main_class_path := "pkg.Main", class_path := "/proj"
    verbose := false, encoding := "UTF-8", compiler := "javac" }

/-- A source tree holding two ".class" files and one ".java" file. -/
def demoCleanTree : List FSEntry :=
  [.file "A.class", .file "B.java", .file "C.class"]

/-- The scanner agrees with filtering the full depth-first file listing:
it returns files only (never directories), exactly those satisfying the
predicate, in listing order. -/
theorem posorder_eq_filter (condition : String → Bool) (folder : String)
    (es : List FSEntry) :
    posorder_traversal condition folder es = (allFiles folder es).filter condition := by
  induction folder, es using posorder_traversal.induct condition with
  | case1 folder => simp [posorder_traversal, allFiles]
  | case2 folder n es ih =>
      simp only [posorder_traversal, allFiles, List.filter_cons]
      cases h : condition (pathJoin folder n) <;> simp [h, ih]
  | case3 folder n sub es ih1 ih2 =>
      simp [posorder_traversal, allFiles, List.filter_append, ih1, ih2]

/-- The scanner splices each entry's results in place, in listing order. -/
theorem posorder_eq_splice (condition : String → Bool) (folder : String)
    (es : List FSEntry) :
    posorder_traversal condition folder es =
      (es.map (spliceEntry condition folder)).flatten := by
  induction folder, es using posorder_traversal.induct condition with
  | case1 folder => simp [posorder_traversal]
  | case2 folder n es ih => simp [posorder_traversal, spliceEntry, ih]
  | case3 folder n sub es ih1 ih2 =>
      simp only [posorder_traversal, List.map_cons, List.flatten_cons, ih2]
      rw [ih1, spliceEntry]
      simp

/-- The batch loop with a first failure at `bad`: exactly `pre ++ [bad]` is
attempted, `bad`'s diagnostics are recorded, nothing after `bad` runs. -/
theorem runBatch_first_failure (ok : String → Bool) (diag : String → String) :
    ∀ (pre : List String), (∀ f ∈ pre, ok f = true) →
    ∀ (bad : String), ok bad = false → ∀ (post : List String),
      runBatch ok diag (pre ++ bad :: post) = (pre ++ [bad], some (bad, diag bad))
  | [], _, bad, hbad, post => by simp [runBatch, hbad]
  | f :: fs, hpre, bad, hbad, post => by
      have hf : ok f = true := hpre f (by simp)
      have ih := runBatch_first_failure ok diag fs
        (fun g hg => hpre g (by simp [hg])) bad hbad post
      simp [runBatch, hf, ih]

/-- The batch loop with no failure attempts every file, in order. -/
theorem runBatch_all_ok (ok : String → Bool) (diag : String → String) :
    ∀ (files : List String), (∀ f ∈ files, ok f = true) →
      runBatch ok diag files = (files, none)
  | [], _ => by simp [runBatch]
  | f :: fs, h => by
      have hf : ok f = true := h f (by simp)
      have ih := runBatch_all_ok ok diag fs (fun g hg => h g (by simp [hg]))
      simp [runBatch, hf, ih]

/-- The settings submenu loop itself performs no write to the persisted
options file. -/
theorem settingsLoop_no_persist (os : OSPath) :
    ∀ (actions : List SettingsAction) (o fin : CompilationOptions)
      (evs : List SessionEvent),
      settingsLoop os o actions = some (fin, evs) →
      evs.filter isPersistedEvent = []
  | [], o, fin, evs, h => by
      simp only [settingsLoop, Option.some.injEq, Prod.mk.injEq] at h
      simp [← h.2]
  | a :: as, o, fin, evs, h => by
      rw [settingsLoop] at h
      cases happ : applySettingsAction os o a with
      | none => rw [happ] at h; simp at h
      | some o2 =>
          rw [happ] at h
          cases hloop : settingsLoop os o2 as with
          | none => simp [hloop] at h
          | some r =>
              obtain ⟨fin2, evs2⟩ := r
              simp only [hloop, Option.some.injEq, Prod.mk.injEq] at h
              have ih := settingsLoop_no_persist os as o2 fin2 evs2 hloop
              rw [← h.2]
              simp only [List.filter_append, ih, List.append_nil]
              by_cases hinv : a = SettingsAction.invalidChoice <;>
                simp [hinv, isPersistedEvent]

/-- C5: for every directory tree and predicate, the scan returns exactly the
files satisfying the predicate, at any nesting depth, and no other entries
(no directories, no non-matching files); and rescanning the unmodified tree
yields the same multiset of results. -/
theorem scan_exact_and_idempotent (condition : String → Bool) (folder : String)
    (es : List FSEntry) :
    posorder_traversal condition folder es = (allFiles folder es).filter condition ∧
    List.Perm (posorder_traversal condition folder es)
      (posorder_traversal condition folder es) :=
  ⟨posorder_eq_filter condition folder es, List.Perm.refl _⟩

/-- C6: the scanner's output order is splice-in-place depth-first: each
listing entry contributes its results in place (a subdirectory's descendants
are fully appended before any later sibling is considered, a matching file is
appended at its own position), and no sorting is applied — a concrete scan
output is not lexicographically sorted. -/
theorem scan_splice_in_place (condition : String → Bool) (folder : String)
    (es : List FSEntry) :
    posorder_traversal condition folder es =
      (es.map (spliceEntry condition folder)).flatten ∧
    posorder_traversal (fun f => pyEndsWith f ".java") "r"
        [.file "b.java", .dir "a" [.file "c.java"], .file "a.java"] =
      ["r/b.java", "r/a/c.java", "r/a.java"] ∧
    isLexSorted
        (posorder_traversal (fun f => pyEndsWith f ".java") "r"
          [.file "b.java", .dir "a" [.file "c.java"], .file "a.java"]) = false := by
  refine ⟨posorder_eq_splice condition folder es, ?_, ?_⟩ <;>
    · simp only [posorder_traversal]
      decide

/-- C8: folder validation resolves the input to an absolute path; when the
resolved path exists and is a directory it returns that absolute path,
otherwise it terminates the program with exit status 1 and an error naming
the resolved path's base name. -/
theorem validate_folder_contract (os : OSPath) (p : String) :
    ((os.pathExists (os.abspath p) && os.isDir (os.abspath p)) = true →
      validate_folder os p = .ok (os.abspath p)) ∧
    ((os.pathExists (os.abspath p) && os.isDir (os.abspath p)) = false →
      validate_folder os p = .fatalExit 1 (basename (os.abspath p))) := by
  unfold validate_folder
  constructor <;> intro h <;>
    cases h1 : os.pathExists (os.abspath p) <;>
      cases h2 : os.isDir (os.abspath p) <;> simp_all

/-- Witness for C8: under a resolver that prepends "/abs/", a valid relative
input returns its absolute form, and an invalid one exits with status 1
reporting only the base name "bad", not the full resolved path "/abs/bad". -/
theorem validate_folder_contract_witness :
    validate_folder
        { abspath := fun s => "/abs/" ++ s
          pathExists := fun q => q == "/abs/good"
          isDir := fun q => q == "/abs/good" } "good" = .ok "/abs/good" ∧
    validate_folder
        { abspath := fun s => "/abs/" ++ s
          pathExists := fun q => q == "/abs/good"
          isDir := fun q => q == "/abs/good" } "bad" = .fatalExit 1 "bad" ∧
    "bad" ≠ "/abs/bad" :=
  ⟨(validate_folder_contract _ "good").1 (by decide),
   (validate_folder_contract _ "bad").2 (by decide),
   by decide⟩

/-- C4: a batch compilation (the loop shared by compile-all and
compile-selected) over a file list with a failing file processes the list in
order, attempts exactly the files strictly before the first failure plus the
failing file itself, never any later file, reports the aggregate
"could not compile all files" failure with the failing file's diagnostics
surfaced and no total, and the files compiled before the failure remain
compiled. -/
theorem batch_stops_at_first_failure (ok : String → Bool) (diag : String → String)
    (pre post : List String) (bad : String)
    (hpre : ∀ f ∈ pre, ok f = true) (hbad : ok bad = false) :
    (compileBatchReport ok diag (pre ++ bad :: post)).attempted = pre ++ [bad] ∧
    (compileBatchReport ok diag (pre ++ bad :: post)).failureReported = true ∧
    (compileBatchReport ok diag (pre ++ bad :: post)).surfacedDiagnostics =
      some (bad, diag bad) ∧
    (compileBatchReport ok diag (pre ++ bad :: post)).totalReported = none ∧
    ((compileBatchReport ok diag (pre ++ bad :: post)).attempted).filter ok = pre := by
  have hrb := runBatch_first_failure ok diag pre hpre bad hbad post
  have hfil : pre.filter ok = pre := List.filter_eq_self.mpr hpre
  refine ⟨?_, ?_, ?_, ?_, ?_⟩ <;>
    simp [compileBatchReport, hrb, List.filter_append, hfil, hbad]

/-- Witness for C4: of three files where the second fails, exactly files 1
and 2 are attempted, file 3 never, the failure and file 2's diagnostics are
reported with no total, and file 1 stays compiled. -/
theorem batch_stops_at_first_failure_witness :
    (compileBatchReport (fun f => f != "f2") (fun f => f ++ ": syntax error")
        ["f1", "f2", "f3"]).attempted = ["f1", "f2"] ∧
    (compileBatchReport (fun f => f != "f2") (fun f => f ++ ": syntax error")
        ["f1", "f2", "f3"]).failureReported = true ∧
    (compileBatchReport (fun f => f != "f2") (fun f => f ++ ": syntax error")
        ["f1", "f2", "f3"]).surfacedDiagnostics = some ("f2", "f2: syntax error") ∧
    (compileBatchReport (fun f => f != "f2") (fun f => f ++ ": syntax error")
        ["f1", "f2", "f3"]).totalReported = none ∧
    ((compileBatchReport (fun f => f != "f2") (fun f => f ++ ": syntax error")
        ["f1", "f2", "f3"]).attempted).filter (fun f => f != "f2") = ["f1"] :=
  batch_stops_at_first_failure (fun f => f != "f2") (fun f => f ++ ": syntax error")
    ["f1"] ["f3"] "f2" (by decide) (by decide)

/-- C10: compile-selected splits the input on commas, strips each token, and
silently keeps only all-digit tokens whose value lies in 1..(number of
available files); when none survive, the no-selection error is reported and
nothing is compiled; otherwise each surviving token k selects the k-th
scanned file — duplicates compiled once per occurrence, in token order — and
on success the reported total is the number of surviving tokens. -/
theorem compile_specific_selection (ok : String → Bool) (diag : String → String)
    (files_available : List String) (input : String) :
    (selectedTokens input files_available.length = [] →
      compile_specific_files ok diag files_available input = none) ∧
    (selectedTokens input files_available.length ≠ [] →
      compile_specific_files ok diag files_available input =
        some (compileBatchReport ok diag
          ((selectedTokens input files_available.length).map
            (fun t => files_available.getD (pyInt t - 1) "")))) ∧
    ((∀ f ∈ (selectedTokens input files_available.length).map
        (fun t => files_available.getD (pyInt t - 1) ""), ok f = true) →
      selectedTokens input files_available.length ≠ [] →
      (compile_specific_files ok diag files_available input).map
          BatchReport.totalReported =
        some (some ((selectedTokens input files_available.length).length)) ∧
      (compile_specific_files ok diag files_available input).map
          BatchReport.attempted =
        some ((selectedTokens input files_available.length).map
          (fun t => files_available.getD (pyInt t - 1) ""))) := by
  refine ⟨?_, ?_, ?_⟩
  · intro h
    simp [compile_specific_files, h]
  · intro h
    simp [compile_specific_files, List.isEmpty_iff, h]
  · intro hok h
    have hrb := runBatch_all_ok ok diag _ hok
    simp at hrb
    simp [compile_specific_files, List.isEmpty_iff, h, compileBatchReport, hrb]

/-- Witness for C10: with two available files and input
`" 2, x, 1, 02, 0, 7 "`, the surviving tokens are "2", "1", "02"; the second
file is compiled twice and the first once, in token order, and the reported
total is 3. -/
theorem compile_specific_selection_witness :
    selectedTokens " 2, x, 1, 02, 0, 7 " (["A.java", "B.java"] : List String).length =
      ["2", "1", "02"] ∧
    (selectedTokens " 2, x, 1, 02, 0, 7 "
        (["A.java", "B.java"] : List String).length).map
      (fun t => (["A.java", "B.java"] : List String).getD (pyInt t - 1) "") =
      ["B.java", "A.java", "B.java"] ∧
    compile_specific_files (fun _ => true) (fun _ => "") ["A.java", "B.java"]
        " 2, x, 1, 02, 0, 7 " =
      some (compileBatchReport (fun _ => true) (fun _ => "")
        ((selectedTokens " 2, x, 1, 02, 0, 7 "
            (["A.java", "B.java"] : List String).length).map
          (fun t => (["A.java", "B.java"] : List String).getD (pyInt t - 1) ""))) ∧
    (compile_specific_files (fun _ => true) (fun _ => "") ["A.java", "B.java"]
        " 2, x, 1, 02, 0, 7 ").map BatchReport.totalReported =
      some (some ((selectedTokens " 2, x, 1, 02, 0, 7 "
        (["A.java", "B.java"] : List String).length).length)) ∧
    (compile_specific_files (fun _ => true) (fun _ => "") ["A.java", "B.java"]
        " 2, x, 1, 02, 0, 7 ").map BatchReport.attempted =
      some ((selectedTokens " 2, x, 1, 02, 0, 7 "
          (["A.java", "B.java"] : List String).length).map
        (fun t => (["A.java", "B.java"] : List String).getD (pyInt t - 1) "")) := by
  have h := compile_specific_selection (fun _ => true) (fun _ => "")
    ["A.java", "B.java"] " 2, x, 1, 02, 0, 7 "
  have htoks : selectedTokens " 2, x, 1, 02, 0, 7 "
      (["A.java", "B.java"] : List String).length = ["2", "1", "02"] := by
    decide
  have hne : selectedTokens " 2, x, 1, 02, 0, 7 "
      (["A.java", "B.java"] : List String).length ≠ [] := by
    rw [htoks]; simp
  refine ⟨htoks, ?_, h.2.1 hne, (h.2.2 (fun f _ => rfl) hne).1,
    (h.2.2 (fun f _ => rfl) hne).2⟩
  rw [htoks]
  decide

/-- C7: serializing a record whose folder fields are absolute paths of
existing directories and then deserializing the file yields a field-for-field
equal record, and the persisted JSON object has exactly the six fields
src_folder, main_class_path, class_path, verbose, encoding, compiler. -/
theorem options_file_roundtrip (os : OSPath) (o : CompilationOptions)
    (hsrc_abs : os.abspath o.src_folder = o.src_folder)
    (hsrc_ex : os.pathExists o.src_folder = true)
    (hsrc_dir : os.isDir o.src_folder = true)
    (hcp_abs : os.abspath o.class_path = o.class_path)
    (hcp_ex : os.pathExists o.class_path = true)
    (hcp_dir : os.isDir o.class_path = true) :
    load_compilation_options_file os (create_compilation_options_file o) = some o ∧
    (create_compilation_options_file o).map Prod.fst =
      ["src_folder", "main_class_path", "class_path", "verbose", "encoding",
       "compiler"] := by
  obtain ⟨s, m, c, v, e, cp⟩ := o
  simp only at hsrc_abs hsrc_ex hsrc_dir hcp_abs hcp_ex hcp_dir
  refine ⟨?_, rfl⟩
  simp [load_compilation_options_file, create_compilation_options_file,
    jlookupStr, jlookupBool, jlookup, set_src_folder, set_class_path,
    validate_folder, hsrc_abs, hsrc_ex, hsrc_dir, hcp_abs, hcp_ex, hcp_dir,
    set_main_class_path, set_verbose, set_encoding, set_compiler,
    CompilationOptions.empty]

/-- Witness for C7: a concrete record with absolute, existing folders
round-trips, and the file has exactly the six fields. -/
theorem options_file_roundtrip_witness :
    load_compilation_options_file osAll (create_compilation_options_file demoOptions) =
      some demoOptions ∧
    (create_compilation_options_file demoOptions).map Prod.fst =
      ["src_folder", "main_class_path", "class_path", "verbose", "encoding",
       "compiler"] :=
  options_file_roundtrip osAll demoOptions rfl rfl rfl rfl rfl rfl

/-- The batch-boundary handler swallows every outcome: whether or not the
loop raised, control returns to the menu. -/
theorem catchCompilationError_eq_ok (x : Except CompilationError Unit) :
    catchCompilationError x = .ok () := by
  cases x <;> rfl

/-- C1, evaluated at the failing input: with a compiler that fails on every
file, menu choices "1" and "2" catch the `CompilationError` at the batch
boundary and return to the menu, but choice "4" (compile and run) lets the
`CompilationError` raised while compiling the main file escape the menu
loop — the program terminates abnormally instead of resuming the menu. -/
theorem compile_and_run_error_escapes_menu :
    menu_actionE (fun _ => false) demoOptions [.dir "pkg" [.file "Main.java"]] "1" "1" =
      .ok () ∧
    menu_actionE (fun _ => false) demoOptions [.dir "pkg" [.file "Main.java"]] "1" "2" =
      .ok () ∧
    menu_actionE (fun _ => false) demoOptions [.dir "pkg" [.file "Main.java"]] "1" "4" =
      .error { message := "Could not compile the file \"/proj/pkg/Main.java\"." } := by
  refine ⟨?_, ?_, ?_⟩
  · simp [menu_actionE, catchCompilationError_eq_ok]
  · simp [menu_actionE, catchCompilationError_eq_ok]
  · simp only [menu_actionE, demoOptions]
    norm_num [compile_file, mainFilePath, pathJoin, pyReplaceChar,
      CompilationError.mk.injEq]
    rfl

/-- C2 counterexample: in a settings session that changes the encoding and
then the compiler, nothing is written to the persisted file between the two
mutations, so after the first mutation (and before the next submenu prompt)
the persisted file does not hold the updated record. -/
theorem settings_not_persisted_per_mutation :
    (setup_compilation_options osAll demoOptions
        [.chooseEncoding "latin1", .chooseCompiler "ecj"]).map
      (fun r => immediatelyPersisted r.snd) = some false := by
  simp [setup_compilation_options, settingsLoop, applySettingsAction,
    set_encoding, set_compiler, demoOptions, osAll, immediatelyPersisted]

/-- C2 amended: a settings session writes the persisted options file exactly
once, after the user selects return, and that single write holds the final
record with all of the session's mutations applied. -/
theorem settings_persist_once_at_end (os : OSPath) (o fin : CompilationOptions)
    (actions : List SettingsAction) (evs : List SessionEvent)
    (h : setup_compilation_options os o actions = some (fin, evs)) :
    evs.filter isPersistedEvent = [.persisted fin] ∧
    evs.getLast? = some (.persisted fin) := by
  rw [setup_compilation_options] at h
  cases hloop : settingsLoop os o actions with
  | none => simp [hloop] at h
  | some r =>
      obtain ⟨fin2, evs2⟩ := r
      simp only [hloop, Option.some.injEq, Prod.mk.injEq] at h
      obtain ⟨hf, he⟩ := h
      subst hf
      rw [← he]
      have hnp := settingsLoop_no_persist os actions o fin2 evs2 hloop
      constructor
      · simp [List.filter_append, hnp, isPersistedEvent]
      · simp

/-- Witness for C2 amended: a concrete one-mutation session produces exactly
one persistence event, at the very end, holding the final record. -/
theorem settings_persist_once_at_end_witness :
    ([SessionEvent.mutated (set_encoding demoOptions "latin1"),
      SessionEvent.persisted (set_encoding demoOptions "latin1")].filter
        isPersistedEvent =
      [SessionEvent.persisted (set_encoding demoOptions "latin1")]) ∧
    ([SessionEvent.mutated (set_encoding demoOptions "latin1"),
      SessionEvent.persisted (set_encoding demoOptions "latin1")].getLast? =
      some (SessionEvent.persisted (set_encoding demoOptions "latin1"))) :=
  settings_persist_once_at_end osAll demoOptions (set_encoding demoOptions "latin1")
    [.chooseEncoding "latin1"] _
    (by simp [setup_compilation_options, settingsLoop, applySettingsAction,
      set_encoding, demoOptions, osAll])

/-- C3 counterexample: on a tree with two ".class" files and one ".java"
file, `clear_build` deletes exactly the two ".class" files, but never reports
the total count 2 that the claim requires. -/
theorem clear_build_no_total_count :
    (clear_build "/proj" demoCleanTree).snd = ["/proj/A.class", "/proj/C.class"] ∧
    CleanEvent.totalReported 2 ∉ (clear_build "/proj" demoCleanTree).fst := by
  constructor <;>
    · simp only [clear_build, demoCleanTree, posorder_traversal]
      decide

/-- C3 amended: the clean operation deletes exactly the files ending in
".class" (at any depth, and no others), reports each individual deletion
followed by a closing message, but does not report the total count of deleted
files. -/
theorem clear_build_deletes_exactly_class_files (folder : String)
    (tree : List FSEntry) :
    (clear_build folder tree).snd =
      (allFiles folder tree).filter (fun f => pyEndsWith f ".class") ∧
    (clear_build folder tree).fst =
      ((clear_build folder tree).snd.map CleanEvent.deleted) ++
        [CleanEvent.buildCleaned] ∧
    ∀ n, CleanEvent.totalReported n ∉ (clear_build folder tree).fst := by
  refine ⟨posorder_eq_filter _ folder tree, rfl, ?_⟩
  intro n hn
  simp only [clear_build, List.mem_append, List.mem_map,
    List.mem_singleton] at hn
  rcases hn with ⟨a, _, ha⟩ | hb
  · exact absurd ha (by simp)
  · exact absurd hb (by simp)

/-- C9: compile-and-run resolves the dotted entry point to
`<src_folder>/<dots→slashes>.java` (e.g. `pkg.Main` under `/src` to
`/src/pkg/Main.java`), always compiles that file first, and only when that
compilation succeeds invokes `java -cp <class_path> <main_class_path>` with
the classpath argument equal to the configured class path. -/
theorem compile_and_run_resolution (o : CompilationOptions) (ok : String → Bool) :
    mainFilePath o.src_folder o.main_class_path =
      o.src_folder ++ "/" ++ ((pyReplaceChar o.main_class_path '.' '/') ++ ".java") ∧
    compile_and_run_invocations ok o =
      compileCommand o (mainFilePath o.src_folder o.main_class_path) ::
        (if ok (mainFilePath o.src_folder o.main_class_path) then
          [["java", "-cp", o.class_path, o.main_class_path]] else []) ∧
    mainFilePath "/src" "pkg.Main" = "/src/pkg/Main.java" :=
  ⟨rfl, rfl, by decide⟩

end Jacs
